import Mathlib

/-!
Verification development for the ai-engagement-scorer engine.

The engine scores a chat conversation along four dimensions.  This file
shallowly embeds the scoring code (the three dimension scorers whose source
is available, a spec-modelled fourth one, and the aggregating scoring
engine) as executable Lean definitions over `List Char` / `String` data,
and proves the frozen claims about them.

Modelling conventions:
* a JavaScript value that can sit in a message field is `JsVal` (a string,
  or an opaque non-string value carrying only its truthiness);
* `Message` is a structurally validated message (truthy role, string
  content); `RawMessage` is the pre-validation shape;
* JS `text.includes(pat)` is `jsIncludes` on char lists;
* JS `text.split(/\s+/).length` is `jsWordCount` (counting the boundary
  empty segments the JS split produces);
* JS `text.match(/and/g).length` is `countOcc` (greedy non-overlapping);
* the three role-definition regexes are embedded as an explicit
  leftmost-match backtracking search (`searchRole`);
* all text is assumed ASCII, so `Char.toLower` agrees with JS
  `toLowerCase` and string length agrees with JS `.length`.
-/

namespace AIEngagement

/-- A JavaScript value stored in a raw message field: either a string or
some non-string value of which only the truthiness is relevant to the
engine's validation. -/
inductive JsVal where
  | str (s : String)
  | nonString (truthy : Bool)
deriving DecidableEq

/-- A message as received by the engine, before validation: either field
may be absent (`none`) and the content may be a non-string. -/
structure RawMessage where
  role : Option JsVal
  content : Option JsVal
deriving DecidableEq

/-- A message after the engine's structural validation: the role is some
truthy JS value and the content is a (non-empty) string. -/
structure Message where
  role : JsVal
  content : String
deriving DecidableEq

/-- JS truthiness of a `JsVal`: a string is truthy iff non-empty. -/
def jsValTruthy : JsVal → Bool
  | .str s => !s.isEmpty
  | .nonString t => t

/-! ## Shared text heuristics -/

/-- Does `hay` start with `pat` (exact character match)? -/
def listStarts : List Char → List Char → Bool
  | [], _ => true
  | _ :: _, [] => false
  | p :: ps, c :: cs => p == c && listStarts ps cs

/-- JS `hay.includes(pat)`: `pat` occurs contiguously in `hay`. -/
def jsIncludes (hay pat : List Char) : Bool :=
  match hay with
  | [] => listStarts pat []
  | _ :: rest => listStarts pat hay || jsIncludes rest pat

/-- Lower-case the characters of a string (JS `toLowerCase`, ASCII). -/
def jsLower (s : String) : List Char := s.data.map Char.toLower

/-- A character matched by the JS regex class `\s` (ASCII range). -/
def isWsChar (c : Char) : Bool :=
  c == ' ' || c == '\t' || c == '\n' || c == '\r' || c == '\x0b' || c == '\x0c'

/-- Number of maximal whitespace runs in the character list; the flag
records whether the scan is currently inside a run. -/
def wsRuns (inRun : Bool) : List Char → Nat
  | [] => 0
  | c :: cs =>
    if isWsChar c then (if inRun then wsRuns true cs else 1 + wsRuns true cs)
    else wsRuns false cs

/-- JS `s.split(/\s+/).length`: one more than the number of maximal
whitespace runs (the JS split keeps the empty boundary segments). -/
def jsWordCount (s : String) : Nat := wsRuns false s.data + 1

/-- Helper for `countOcc`: `skip` characters are still to be skipped over
after a match before looking for the next one. -/
def countOccAux (pat : List Char) (skip : Nat) : List Char → Nat
  | [] => 0
  | c :: rest =>
    match skip with
    | k + 1 => countOccAux pat k rest
    | 0 =>
      if listStarts pat (c :: rest) then 1 + countOccAux pat (pat.length - 1) rest
      else countOccAux pat 0 rest

/-- JS `(text.match(/pat/g) || []).length` for a literal pattern:
the number of greedy non-overlapping occurrences of `pat` in `text`. -/
def countOcc (pat text : List Char) : Nat := countOccAux pat 0 text

/-- Does the text match the JS regex `/\d+\./`, i.e. contain a digit
immediately followed by a dot (the last digit of the `\d+` run)? -/
def hasDigitDot : List Char → Bool
  | [] => false
  | [_] => false
  | a :: b :: rest => (a.isDigit && b == '.') || hasDigitDot (b :: rest)

/-- Helper for `dedupFirst`: drop elements already in `seen`, keeping the
first occurrence of each string. -/
def dedupFirstAux (seen : List String) : List String → List String
  | [] => []
  | x :: xs =>
    if x ∈ seen then dedupFirstAux seen xs
    else x :: dedupFirstAux (x :: seen) xs

/-- JS `[...new Set(l)]`: duplicates removed, first-occurrence order kept. -/
def dedupFirst (l : List String) : List String := dedupFirstAux [] l

/-- Maximum of `f` over the messages, JS style
(`forEach` with `max = Math.max(max, score)`, starting from 0). -/
def maxScoreOver (f : Message → Nat) (msgs : List Message) : Nat :=
  msgs.foldl (fun acc m => Nat.max acc (f m)) 0

/-! ## Role-definition regular expressions

The scorer applies the three JS regexes
`/act as (a|an) (.+?)(?:\.|,|\n|$)/i`, `/you are (a|an) (.+?)(?:\.|,|\n|$)/i`
and `/as (a|an) (.+?)(?:\.|,|\n|$)/i` to the original message text and uses
the second capture group.  We embed JS `String.match` semantics directly:
leftmost starting position, alternation trying `a` before `an`, and a lazy
`(.+?)` that consumes one non-newline character and then extends until the
first terminator (`.`, `,`, newline, or end of input, since `.` cannot
cross a newline and `$` has no `m` flag). -/

/-- A character terminating the lazy capture group. -/
def termChar (c : Char) : Bool := c == '.' || c == ',' || c == '\n'

/-- Characters consumed by the lazy `.+?` after its first character: up to
but excluding the first terminator. -/
def takeUntilTerm : List Char → List Char
  | [] => []
  | c :: rest => if termChar c then [] else c :: takeUntilTerm rest

/-- Match `(.+?)(?:\.|,|\n|$)` at this position: at least one non-newline
character, then lazily extend to the first terminator or the end. -/
def lazyCapture : List Char → Option (List Char)
  | [] => none
  | c :: rest => if c == '\n' then none else some (c :: takeUntilTerm rest)

/-- Case-insensitive literal match: if lowering `hay` starts with the
(lower-case) pattern `pat`, return the remainder of `hay`. -/
def ciStarts : List Char → List Char → Option (List Char)
  | [], hay => some hay
  | _ :: _, [] => none
  | p :: ps, c :: cs => if c.toLower == p then ciStarts ps cs else none

/-- Try the whole role regex at this exact position: the leading literal
(`"act as "`, `"you are "` or `"as "`), then `(a|an) ` (the `a` branch
first, then `an`; if `a ` matches, `an ` cannot, so no further
backtracking is needed), then the lazy capture. -/
def tryRoleAt (lead : List Char) (hay : List Char) : Option (List Char) :=
  match ciStarts lead hay with
  | none => none
  | some rem =>
    match ciStarts ['a', ' '] rem with
    | some rem2 => lazyCapture rem2
    | none =>
      match ciStarts ['a', 'n', ' '] rem with
      | some rem2 => lazyCapture rem2
      | none => none

/-- JS `text.match(regex)`: the capture of the leftmost position at which
the role regex with leading literal `lead` matches. -/
def searchRole (lead : List Char) : List Char → Option (List Char)
  | [] => tryRoleAt lead []
  | c :: rest =>
    match tryRoleAt lead (c :: rest) with
    | some r => some r
    | none => searchRole lead rest

/-- Points awarded for one regex's match in `assessRoleDefinition`:
`+3` when the captured role is longer than 5 characters, a further `+2`
when longer than 15, a further `+2` when it contains `with`,
`experienced` or `expert` (case-sensitive, on the captured text). -/
def rolePoints (capture : Option (List Char)) : Nat :=
  match capture with
  | none => 0
  | some role =>
    if !role.isEmpty && role.length > 5 then
      3 + (if role.length > 15 then 2 else 0) +
        (if jsIncludes role "with".data || jsIncludes role "experienced".data ||
            jsIncludes role "expert".data then 2 else 0)
    else 0

/-! ## Result types shared by the four dimension scorers -/

/-- The object each dimension scorer's `analyze` returns. -/
structure DimensionResult where
  score : Nat
  breakdown : List (String × Nat)
  feedback : List String
deriving DecidableEq

/-- The `msg.role === 'user'` filter shared by all scorers. -/
def userFilter (msgs : List Message) : List Message :=
  msgs.filter (fun msg => decide (msg.role = JsVal.str "user"))

/-! ## Prompt Engineering scorer (`PromptEngineeringScorer` in the source) -/

namespace PromptEngineeringScorer

def specificMarkers : List String :=
  ["specific", "exactly", "precisely", "detailed", "particular"]

def vagueMarkers : List String :=
  ["something", "stuff", "things", "help me with", "general"]

/-- The per-message specificity trial score (body of the `forEach` in
`assessSpecificity`). -/
def specMsgScore (m : Message) : Nat :=
  let text := jsLower m.content
  let wordCount := jsWordCount m.content
  let score := 0
  let score := if wordCount > 50 then score + 2 else score
  let score := if wordCount > 100 then score + 1 else score
  let score := if specificMarkers.any (fun mk => jsIncludes text mk.data) then score + 2 else score
  let score := if !vagueMarkers.any (fun mk => jsIncludes text mk.data) then score + 1 else score
  score

def assessSpecificity (prompts : List Message) : Nat :=
  Nat.min 6 (maxScoreOver specMsgScore prompts)

/-- The per-message structure trial score (body of the `forEach` in
`assessStructure`); bullets/numbering, paragraph breaks, newline count. -/
def structMsgScore (m : Message) : Nat :=
  let content := m.content.data
  let hasBulletPoints := jsIncludes content "-".data || jsIncludes content "•".data
  let hasNumbering := hasDigitDot content
  let hasSections := jsIncludes content "\n\n".data
  let lineBreaks := content.count '\n'
  let score := 0
  let score := if hasBulletPoints || hasNumbering then score + 3 else score
  let score := if hasSections && lineBreaks > 2 then score + 2 else score
  let score := if lineBreaks > 4 then score + 1 else score
  score

def assessStructure (prompts : List Message) : Nat :=
  Nat.min 6 (maxScoreOver structMsgScore prompts)

def contextMarkers : List String :=
  ["context:", "background:", "assume", "given that", "scenario:"]

def constraintMarkers : List String :=
  ["constraint", "limit", "must", "should not", "requirement"]

/-- The per-message context trial score (body of the `forEach` in
`assessContext`). -/
def contextMsgScore (m : Message) : Nat :=
  let text := jsLower m.content
  let hasExamples := jsIncludes text "example".data || jsIncludes text "e.g.".data ||
    jsIncludes text "for instance".data
  let score := 0
  let score := if contextMarkers.any (fun mk => jsIncludes text mk.data) then score + 3 else score
  let score := if hasExamples then score + 2 else score
  let score := if constraintMarkers.any (fun mk => jsIncludes text mk.data) then score + 1 else score
  score

def assessContext (prompts : List Message) : Nat :=
  Nat.min 6 (maxScoreOver contextMsgScore prompts)

/-- Leading literal of the first role regex, `/act as (a|an) .../i`. -/
def actAsLead : List Char := "act as ".data

/-- Leading literal of the second role regex, `/you are (a|an) .../i`. -/
def youAreLead : List Char := "you are ".data

/-- Leading literal of the third role regex, `/as (a|an) .../i`. -/
def asLead : List Char := "as ".data

/-- The per-message role-definition trial score: the three regexes are
applied to the original message text and their points accumulate. -/
def roleDefMsgScore (m : Message) : Nat :=
  let text := m.content.data
  rolePoints (searchRole actAsLead text) +
    rolePoints (searchRole youAreLead text) +
    rolePoints (searchRole asLead text)

def assessRoleDefinition (prompts : List Message) : Nat :=
  Nat.min 7 (maxScoreOver roleDefMsgScore prompts)

/-- `generateFeedback`: one advisory string per sub-criterion below 3,
else a single positive message. -/
def generateFeedback (specificity structureScore context roleDefinition : Nat) : List String :=
  let feedback : List String := []
  let feedback := if specificity < 3 then
    feedback ++ ["Try to be more specific in your prompts - include details about what you need"]
    else feedback
  let feedback := if structureScore < 3 then
    feedback ++ ["Consider using bullet points, numbering, or sections to organize your prompts"]
    else feedback
  let feedback := if context < 3 then
    feedback ++ ["Provide more context and examples to help the AI understand your needs better"]
    else feedback
  let feedback := if roleDefinition < 3 then
    feedback ++ ["Define clear roles for the AI (e.g., \x27Act as a marketing expert\x27) to improve response quality"]
    else feedback
  if feedback.length > 0 then feedback
  else ["Your prompt engineering skills are strong! Keep up the good work."]

/-- `PromptEngineeringScorer.analyze`. -/
def analyze (conversation : List Message) : DimensionResult :=
  let userPrompts := userFilter conversation
  if userPrompts.length = 0 then
    { score := 0
      breakdown := [("specificity", 0), ("structure", 0), ("context", 0), ("roleDefinition", 0)]
      feedback := ["No user prompts found in conversation"] }
  else
    let specificity := assessSpecificity userPrompts
    let structureScore := assessStructure userPrompts
    let context := assessContext userPrompts
    let roleDefinition := assessRoleDefinition userPrompts
    { score := specificity + structureScore + context + roleDefinition
      breakdown := [("specificity", specificity), ("structure", structureScore),
        ("context", context), ("roleDefinition", roleDefinition)]
      feedback := generateFeedback specificity structureScore context roleDefinition }

end PromptEngineeringScorer

/-! ## Iterative Refinement scorer -/

namespace IterativeRefinementScorer

/-- Modelled from the spec: the Iterative Refinement analyzer's source file
(`src/scoring/dimensions/iterativeRefinement.js`) is not under `src/`;
only its import by the scoring engine is.  Per spec section 4.3 it has the
same shape as the other scorers: per-sub-criterion max across user
messages with additive marker scoring, sub-criteria `precision`,
`errorCorrection`, `progressiveImprovement` capped at 8/8/9, and the
empty-user-message path mirrors section 4.2 (zero score, zero breakdown,
explanatory feedback).  The exact marker lists are an implementation
choice the spec leaves open; these follow its descriptions. -/
def precisionMarkers : List String :=
  ["more specific", "instead", "rather than", "change the", "adjust"]

/-- Modelled from the spec: error acknowledgment + correction language. -/
def errorCorrectionMarkers : List String :=
  ["that is wrong", "incorrect", "mistake", "error", "fix"]

/-- Modelled from the spec: comparative improvement language across turns. -/
def progressiveMarkers : List String :=
  ["better than before", "improved", "building on", "closer to"]

/-- Modelled from the spec: per-message precision trial score. -/
def precisionMsgScore (m : Message) : Nat :=
  let text := jsLower m.content
  if precisionMarkers.any (fun mk => jsIncludes text mk.data) then 3 else 0

/-- Modelled from the spec: per-message error-correction trial score. -/
def errorCorrectionMsgScore (m : Message) : Nat :=
  let text := jsLower m.content
  if errorCorrectionMarkers.any (fun mk => jsIncludes text mk.data) then 3 else 0

/-- Modelled from the spec: per-message progressive-improvement score. -/
def progressiveMsgScore (m : Message) : Nat :=
  let text := jsLower m.content
  if progressiveMarkers.any (fun mk => jsIncludes text mk.data) then 3 else 0

/-- Modelled from the spec: `precision` sub-criterion, cap 8. -/
def assessPrecision (userMessages : List Message) : Nat :=
  Nat.min 8 (maxScoreOver precisionMsgScore userMessages)

/-- Modelled from the spec: `errorCorrection` sub-criterion, cap 8. -/
def assessErrorCorrection (userMessages : List Message) : Nat :=
  Nat.min 8 (maxScoreOver errorCorrectionMsgScore userMessages)

/-- Modelled from the spec: `progressiveImprovement` sub-criterion, cap 9. -/
def assessProgressiveImprovement (userMessages : List Message) : Nat :=
  Nat.min 9 (maxScoreOver progressiveMsgScore userMessages)

/-- Modelled from the spec: the analyzer's `analyze`, same shape as the
three scorers whose source is available. -/
def analyze (conversation : List Message) : DimensionResult :=
  let userMessages := userFilter conversation
  if userMessages.length = 0 then
    { score := 0
      breakdown := [("precision", 0), ("errorCorrection", 0), ("progressiveImprovement", 0)]
      feedback := ["No user messages found in conversation"] }
  else
    let precision := assessPrecision userMessages
    let errorCorrection := assessErrorCorrection userMessages
    let progressiveImprovement := assessProgressiveImprovement userMessages
    { score := precision + errorCorrection + progressiveImprovement
      breakdown := [("precision", precision), ("errorCorrection", errorCorrection),
        ("progressiveImprovement", progressiveImprovement)]
      feedback := if precision < 3 || errorCorrection < 3 || progressiveImprovement < 3 then
          ["Refine AI outputs with specific follow-up requests and corrections"]
        else ["Your iterative refinement skills are strong!"] }

end IterativeRefinementScorer

/-! ## Problem-Solving scorer (`ProblemSolvingScorer` in the source) -/

namespace ProblemSolvingScorer

def stepMarkers : List String :=
  ["step by step", "first", "then", "next", "finally", "break down", "step 1", "step 2"]

/-- The per-message decomposition trial score (body of the `forEach` in
`assessDecomposition`). -/
def decompMsgScore (m : Message) : Nat :=
  let text := jsLower m.content
  let hasStepLanguage := stepMarkers.any (fun mk => jsIncludes text mk.data)
  let hasMultipleRequests := countOcc "and".data text ≥ 2
  let hasTaskList := jsIncludes text "1.".data && jsIncludes text "2.".data
  let hasSubTasks := jsIncludes text "subtask".data || jsIncludes text "component".data ||
    jsIncludes text "part".data
  let score := 0
  let score := if hasStepLanguage then score + 3 else score
  let score := if hasMultipleRequests then score + 2 else score
  let score := if hasTaskList then score + 2 else score
  let score := if hasSubTasks then score + 1 else score
  score

def assessDecomposition (userMessages : List Message) : Nat :=
  Nat.min 8 (maxScoreOver decompMsgScore userMessages)

def continuityMarkers : List String :=
  ["building on", "following from", "based on previous",
    "continue from", "as we discussed", "following up"]

/-- Points contributed by one adjacent pair of user messages in
`assessSequencing`'s loop. -/
def seqPairScore (prev cur : Message) : Nat :=
  let currentText := jsLower cur.content
  let previousText := jsLower prev.content
  let hasContinuity := continuityMarkers.any (fun mk => jsIncludes currentText mk.data)
  let previousHasBasic := jsIncludes previousText "basic".data ||
    jsIncludes previousText "simple".data
  let currentHasAdvanced := jsIncludes currentText "advanced".data ||
    jsIncludes currentText "complex".data
  (if hasContinuity then 2 else 0) +
    (if previousHasBasic && currentHasAdvanced then 2 else 0)

/-- The `for (let i = 1; ...)` loop over consecutive user messages. -/
def seqLoop : List Message → Nat
  | [] => 0
  | [_] => 0
  | a :: b :: rest => seqPairScore a b + seqLoop (b :: rest)

def topicKeywords : List String :=
  ["research", "analysis", "plan", "strategy", "design", "develop",
    "write", "create", "build", "analyze", "calculate", "optimize"]

/-- `extractMainTopics`: the set of topic keywords present in any message
(user or assistant).  The JS builds a `Set`; its size equals the number of
(pairwise distinct) keywords occurring somewhere, which is this list's
length. -/
def extractMainTopics (conversation : List Message) : List String :=
  topicKeywords.filter (fun kw => conversation.any (fun msg => jsIncludes (jsLower msg.content) kw.data))

def assessSequencing (conversation : List Message) : Nat :=
  let userMessages := userFilter conversation
  if userMessages.length < 2 then Nat.min 8 0
  else
    let s := seqLoop userMessages
    let s := if (extractMainTopics conversation).length ≤ 3 then s + 2 else s
    Nat.min 8 s

def objectiveMarkers : List String :=
  ["objective:", "goal:", "i need to", "i want to achieve",
    "purpose:", "aim:", "target:", "deliverable:"]

def completionMarkers : List String :=
  ["thanks", "perfect", "this solves", "exactly what i needed",
    "completed", "finished", "that works", "great, that answers"]

def offTopicMarkers : List String :=
  ["unrelated", "by the way", "another question", "completely different"]

def assessGoalOrientation (conversation : List Message) : Nat :=
  let userMessages := userFilter conversation
  match userMessages with
  | [] => 0
  | u0 :: urest =>
    let firstMessage := jsLower u0.content
    let lastMessage := jsLower (urest.getLastD u0).content
    let hasClearObjective := objectiveMarkers.any (fun mk => jsIncludes firstMessage mk.data)
    let hasActionVerbs := jsIncludes firstMessage "create".data ||
      jsIncludes firstMessage "build".data || jsIncludes firstMessage "analyze".data ||
      jsIncludes firstMessage "develop".data
    let indicatesCompletion := completionMarkers.any (fun mk => jsIncludes lastMessage mk.data)
    let totalMessages := conversation.length
    let relevantMessages := (conversation.filter (fun msg =>
      !offTopicMarkers.any (fun mk => jsIncludes (jsLower msg.content) mk.data))).length
    -- JS compares the float `relevantMessages / totalMessages > 0.8`;
    -- we use the exact rational comparison `5 * relevant > 4 * total`,
    -- which agrees with the double computation at all realistic sizes.
    let goalScore := 0
    let goalScore := if hasClearObjective then goalScore + 3 else goalScore
    let goalScore := if hasActionVerbs then goalScore + 1 else goalScore
    let goalScore := if indicatesCompletion then goalScore + 3 else goalScore
    let goalScore := if 5 * relevantMessages > 4 * totalMessages then goalScore + 2 else goalScore
    Nat.min 9 goalScore

/-- `ProblemSolvingScorer.generateFeedback`. -/
def generateFeedback (decomposition sequencing goalOrientation : Nat) : List String :=
  let feedback : List String := []
  let feedback := if decomposition < 3 then
    feedback ++ ["Break complex problems into smaller steps - use \x27step by step\x27 or numbered tasks"]
    else feedback
  let feedback := if sequencing < 3 then
    feedback ++ ["Build questions logically - reference previous answers and maintain topic flow"]
    else feedback
  let feedback := if goalOrientation < 3 then
    feedback ++ ["Start with clear objectives and maintain focus throughout the conversation"]
    else feedback
  if feedback.length > 0 then feedback
  else ["Your problem-solving approach is strategic and effective! You break down tasks well and maintain clear goals."]

/-- `ProblemSolvingScorer.analyze`. -/
def analyze (conversation : List Message) : DimensionResult :=
  let userMessages := userFilter conversation
  if userMessages.length = 0 then
    { score := 0
      breakdown := [("decomposition", 0), ("sequencing", 0), ("goalOrientation", 0)]
      feedback := ["No user messages found in conversation"] }
  else
    let decomposition := assessDecomposition userMessages
    let sequencing := assessSequencing conversation
    let goalOrientation := assessGoalOrientation conversation
    { score := decomposition + sequencing + goalOrientation
      breakdown := [("decomposition", decomposition), ("sequencing", sequencing),
        ("goalOrientation", goalOrientation)]
      feedback := generateFeedback decomposition sequencing goalOrientation }

end ProblemSolvingScorer

/-! ## Critical Thinking scorer (`CriticalThinkingScorer` in the source) -/

namespace CriticalThinkingScorer

def verificationMarkers : List String :=
  ["verify", "check", "is this correct", "source", "reference",
    "fact check", "evidence", "proof", "citation", "confirm",
    "is this accurate", "double check", "validate"]

def doubtMarkers : List String :=
  ["are you sure", "i think", "actually", "but what about",
    "this seems", "i doubt", "is that right", "correction"]

/-- The per-message verification trial score (body of the `forEach` in
`assessVerification`). -/
def verifMsgScore (m : Message) : Nat :=
  let text := jsLower m.content
  let sourceRequests := jsIncludes text "source".data || jsIncludes text "reference".data ||
    jsIncludes text "citation".data
  let score := 0
  let score := if verificationMarkers.any (fun mk => jsIncludes text mk.data) then score + 3 else score
  let score := if doubtMarkers.any (fun mk => jsIncludes text mk.data) then score + 2 else score
  let score := if sourceRequests then score + 2 else score
  score

def assessVerification (userMessages : List Message) : Nat :=
  Nat.min 8 (maxScoreOver verifMsgScore userMessages)

def biasMarkers : List String :=
  ["bias", "assumption", "perspective", "point of view",
    "limitation", "constraint", "what if", "alternative",
    "balanced", "neutral", "objective", "subjective"]

def challengeMarkers : List String :=
  ["why", "how do you know", "what makes you think",
    "what evidence", "prove it", "justify", "explain why"]

def alternativeMarkers : List String :=
  ["other perspective", "different angle", "alternative view",
    "on the other hand", "counterargument", "opposing view"]

/-- The per-message bias-detection trial score. -/
def biasMsgScore (m : Message) : Nat :=
  let text := jsLower m.content
  let score := 0
  let score := if biasMarkers.any (fun mk => jsIncludes text mk.data) then score + 3 else score
  let score := if challengeMarkers.any (fun mk => jsIncludes text mk.data) then score + 2 else score
  let score := if alternativeMarkers.any (fun mk => jsIncludes text mk.data) then score + 2 else score
  score

def assessBiasDetection (userMessages : List Message) : Nat :=
  Nat.min 8 (maxScoreOver biasMsgScore userMessages)

def qualityMarkers : List String :=
  ["quality", "better", "improve", "enhance", "refine",
    "more detailed", "more specific", "higher quality",
    "comprehensive", "thorough", "depth", "clarity"]

def improvementCriteria : List String :=
  ["make it more concise", "add more details", "simplify",
    "more examples", "better structure", "clearer",
    "more professional", "more engaging", "more practical"]

def comparativeMarkers : List String :=
  ["this is good but", "could be better", "needs improvement",
    "not quite right", "almost there", "getting closer"]

/-- The per-message quality-assessment trial score. -/
def qualityMsgScore (m : Message) : Nat :=
  let text := jsLower m.content
  let score := 0
  let score := if qualityMarkers.any (fun mk => jsIncludes text mk.data) then score + 3 else score
  let score := if improvementCriteria.any (fun mk => jsIncludes text mk.data) then score + 3 else score
  let score := if comparativeMarkers.any (fun mk => jsIncludes text mk.data) then score + 2 else score
  score

def assessQualityAssessment (userMessages : List Message) : Nat :=
  Nat.min 9 (maxScoreOver qualityMsgScore userMessages)

/-- `CriticalThinkingScorer.generateFeedback`. -/
def generateFeedback (verification biasDetection qualityAssessment : Nat) : List String :=
  let feedback : List String := []
  let feedback := if verification < 3 then
    feedback ++ ["Practice verifying AI outputs - ask for sources and double-check important facts"]
    else feedback
  let feedback := if biasDetection < 3 then
    feedback ++ ["Consider potential biases in AI responses and ask for alternative perspectives"]
    else feedback
  let feedback := if qualityAssessment < 3 then
    feedback ++ ["Evaluate output quality more critically - specify what makes a response \x27good\x27 or needs improvement"]
    else feedback
  if feedback.length > 0 then feedback
  else ["Your critical thinking skills are excellent! You effectively evaluate and validate AI responses."]

/-- `CriticalThinkingScorer.analyze`. -/
def analyze (conversation : List Message) : DimensionResult :=
  let userMessages := userFilter conversation
  if userMessages.length = 0 then
    { score := 0
      breakdown := [("verification", 0), ("biasDetection", 0), ("qualityAssessment", 0)]
      feedback := ["No user messages found in conversation"] }
  else
    let verification := assessVerification userMessages
    let biasDetection := assessBiasDetection userMessages
    let qualityAssessment := assessQualityAssessment userMessages
    { score := verification + biasDetection + qualityAssessment
      breakdown := [("verification", verification), ("biasDetection", biasDetection),
        ("qualityAssessment", qualityAssessment)]
      feedback := generateFeedback verification biasDetection qualityAssessment }

end CriticalThinkingScorer

/-! ## Scoring engine (`ScoringEngine` in the source) -/

namespace ScoringEngine

/-- The conversation argument to `analyzeConversation`: either some
non-array JS value (including falsy ones — both fail the same
`!conversation || !Array.isArray(conversation)` guard) or an array of raw
messages. -/
inductive ConversationInput where
  | notArray (v : JsVal)
  | arr (msgs : List RawMessage)

/-- Error text of the non-array guard. -/
def notArrayError : String := "Conversation must be an array of messages"

/-- Error text for a message with a falsy/missing role or content. -/
def missingPropsError (i : Nat) : String :=
  "Message at index " ++ toString i ++ " must have role and content properties"

/-- Error text for a non-string content. -/
def contentTypeError (i : Nat) : String :=
  "Message content at index " ++ toString i ++ " must be a string"

/-- The per-message validation loop (`conversation.forEach((msg, index) =>
...)`): the first offending message throws; on success the raw messages
are repackaged as validated `Message`s. -/
def validateMessages : List RawMessage → Nat → Except String (List Message)
  | [], _ => .ok []
  | m :: rest, i =>
    match m.role, m.content with
    | some r, some c =>
      if !jsValTruthy r || !jsValTruthy c then .error (missingPropsError i)
      else
        match c with
        | .str s => (validateMessages rest (i + 1)).map (fun tl => ⟨r, s⟩ :: tl)
        | .nonString _ => .error (contentTypeError i)
    | _, _ => .error (missingPropsError i)

/-- One iteration of the engine's dimension loop: the `try`/`catch` around
`scorer.analyze(conversation)`.  A raised error is downgraded to a zero
score, an empty breakdown and a diagnostic feedback string naming the
dimension. -/
def runScorer (dimensionName : String) (result : Except String DimensionResult) :
    DimensionResult :=
  match result with
  | .ok r => r
  | .error _ => { score := 0, breakdown := [], feedback := ["Scoring issue in " ++ dimensionName] }

/-- The per-dimension scores of a report (JS object `scores`, in the
engine's fixed insertion order). -/
structure DimScores where
  promptEngineering : Nat
  iterativeRefinement : Nat
  problemSolving : Nat
  criticalThinking : Nat
deriving DecidableEq

/-- The per-dimension breakdowns of a report (JS object `breakdown`). -/
structure DimBreakdowns where
  promptEngineering : List (String × Nat)
  iterativeRefinement : List (String × Nat)
  problemSolving : List (String × Nat)
  criticalThinking : List (String × Nat)
deriving DecidableEq

/-- The report `analyzeConversation` returns.  The `analysisTimestamp`
and `conversationStats` fields of the JS report are not modelled: no
claim concerns them and the timestamp is wall-clock data. -/
structure AnalysisReport where
  overallScore : Nat
  proficiencyLevel : String
  dimensionScores : DimScores
  detailedBreakdown : DimBreakdowns
  feedback : List String
deriving DecidableEq

/-- `getProficiencyLevel`: the threshold ladder, evaluated highest-first. -/
def getProficiencyLevel (score : Int) : String :=
  if score ≥ 86 then "Expert"
  else if score ≥ 76 then "Advanced"
  else if score ≥ 61 then "Proficient"
  else if score ≥ 41 then "Intermediate"
  else "Novice"

/-- `analyzeConversation`, parameterized by the four dimension analyzers
(which, like the JS scorers, may throw — modelled as `Except.error`).
Validation happens centrally before any analyzer result is consulted. -/
def analyzeConversationWith
    (pe ir ps ct : List Message → Except String DimensionResult)
    (input : ConversationInput) : Except String AnalysisReport :=
  match input with
  | .notArray _ => .error notArrayError
  | .arr msgs =>
    match validateMessages msgs 0 with
    | .error e => .error e
    | .ok conversation =>
      let rPE := runScorer "promptEngineering" (pe conversation)
      let rIR := runScorer "iterativeRefinement" (ir conversation)
      let rPS := runScorer "problemSolving" (ps conversation)
      let rCT := runScorer "criticalThinking" (ct conversation)
      let totalScore := rPE.score + rIR.score + rPS.score + rCT.score
      .ok
        { overallScore := totalScore
          proficiencyLevel := getProficiencyLevel (totalScore : Int)
          dimensionScores :=
            ⟨rPE.score, rIR.score, rPS.score, rCT.score⟩
          detailedBreakdown :=
            ⟨rPE.breakdown, rIR.breakdown, rPS.breakdown, rCT.breakdown⟩
          feedback := dedupFirst (rPE.feedback ++ rIR.feedback ++ rPS.feedback ++ rCT.feedback) }

/-- `ScoringEngine.analyzeConversation` with the four concrete scorers
registered in `this.dimensions` (none of which raises). -/
def analyzeConversation : ConversationInput → Except String AnalysisReport :=
  analyzeConversationWith
    (fun c => .ok (PromptEngineeringScorer.analyze c))
    (fun c => .ok (IterativeRefinementScorer.analyze c))
    (fun c => .ok (ProblemSolvingScorer.analyze c))
    (fun c => .ok (CriticalThinkingScorer.analyze c))

end ScoringEngine

/-! ## Definitions used to state the claims -/

/-- A raw message that passes both of the engine's per-message checks:
role and content present and truthy, content a string. -/
def msgOk (m : RawMessage) : Bool :=
  match m.role, m.content with
  | some r, some (JsVal.str s) => jsValTruthy r && !s.isEmpty
  | _, _ => false

/-- A raw message failing the `!msg.role || !msg.content` presence check. -/
def msgMissingProps (m : RawMessage) : Bool :=
  match m.role, m.content with
  | some r, some c => !jsValTruthy r || !jsValTruthy c
  | _, _ => true

/-- A raw message passing the presence check but with non-string content. -/
def msgBadContentType (m : RawMessage) : Bool :=
  match m.role, m.content with
  | some r, some (JsVal.nonString t) => jsValTruthy r && t
  | _, _ => false

/-- Extract the report of a successful analysis (dummy report on error);
used to name concrete reports in closed statements. -/
def getOk : Except String ScoringEngine.AnalysisReport → ScoringEngine.AnalysisReport
  | .ok r => r
  | .error _ => ⟨0, "", ⟨0, 0, 0, 0⟩, ⟨[], [], [], []⟩, []⟩

/-- Rank of a proficiency tier on the 5-tier ladder. -/
def levelRank : String → Nat
  | "Novice" => 0
  | "Intermediate" => 1
  | "Proficient" => 2
  | "Advanced" => 3
  | _ => 4

/-- The documented cap of each sub-criterion. -/
def subCriterionCap : String → Nat
  | "specificity" => 6
  | "structure" => 6
  | "context" => 6
  | "roleDefinition" => 7
  | "decomposition" => 8
  | "sequencing" => 8
  | "goalOrientation" => 9
  | "verification" => 8
  | "biasDetection" => 8
  | "qualityAssessment" => 9
  | _ => 0

/-- Sum of the values of a breakdown mapping. -/
def breakdownSum (b : List (String × Nat)) : Nat := (b.map Prod.snd).sum

/-- An analyzer that never raises, used to instantiate claims quantified
over the analyzer functions. -/
def trivialScorer : List Message → Except String DimensionResult :=
  fun _ => .ok ⟨0, [], []⟩

/-- An analyzer that always raises, used to instantiate C6. -/
def throwingScorer : List Message → Except String DimensionResult :=
  fun _ => .error "internal failure"

/-- A constant succeeding analyzer with a non-trivial result. -/
def constScorer : List Message → Except String DimensionResult :=
  fun _ => .ok ⟨5, [("x", 5)], ["some feedback"]⟩

/-- A small structurally valid conversation used to instantiate claims. -/
def sampleInput : ScoringEngine.ConversationInput :=
  .arr [⟨some (.str "user"), some (.str "Please verify this plan step by step")⟩,
    ⟨some (.str "assistant"), some (.str "Sure, here is the plan.")⟩]

/-- A structurally valid conversation with an assistant turn only. -/
def assistantOnlyMsgs : List RawMessage :=
  [⟨some (.str "assistant"), some (.str "Hello! How can I help you?")⟩]

/-- The specificity trial score as the claim words it: +2 if the word
count exceeds 50, +1 more if it exceeds 100 (additively), +2 if a
specific-language marker appears, +1 if no vague-language marker appears. -/
def specScoreSpecC7 (m : Message) : Nat :=
  (if jsWordCount m.content > 50 then 2 else 0) +
    (if jsWordCount m.content > 100 then 1 else 0) +
    (if PromptEngineeringScorer.specificMarkers.any
        (fun mk => jsIncludes (jsLower m.content) mk.data) then 2 else 0) +
    (if !PromptEngineeringScorer.vagueMarkers.any
        (fun mk => jsIncludes (jsLower m.content) mk.data) then 1 else 0)

/-- A user message of exactly 101 words containing "specific" and no
vague-language markers. -/
def specific101Message : Message :=
  ⟨JsVal.str "user", String.intercalate " " (List.replicate 100 "a" ++ ["specific"])⟩

/-- The decomposition trial score as the claim words it: +3 for a
step-language marker, +2 for at least two occurrences of "and", +2 when
both "1." and "2." are present, +1 for sub-task vocabulary. -/
def decompScoreSpecC8 (m : Message) : Nat :=
  (if ProblemSolvingScorer.stepMarkers.any
      (fun mk => jsIncludes (jsLower m.content) mk.data) then 3 else 0) +
    (if countOcc "and".data (jsLower m.content) ≥ 2 then 2 else 0) +
    (if jsIncludes (jsLower m.content) "1.".data
        && jsIncludes (jsLower m.content) "2.".data then 2 else 0) +
    (if jsIncludes (jsLower m.content) "subtask".data
        || jsIncludes (jsLower m.content) "component".data
        || jsIncludes (jsLower m.content) "part".data then 1 else 0)

/-! ## Helper lemmas -/

/-- `takeUntilTerm` keeps a terminator-free list whole. -/
theorem takeUntilTerm_id (l : List Char) (h : ∀ c ∈ l, termChar c = false) :
    takeUntilTerm l = l := by
  induction l with
  | nil => rfl
  | cons c rest ih =>
    have hc := h c (List.mem_cons_self c rest)
    simp only [takeUntilTerm, hc, Bool.false_eq_true, if_false]
    exact congrArg (c :: ·) (ih fun d hd => h d (List.mem_cons_of_mem c hd))

/-- Membership in the first-occurrence dedup helper. -/
theorem mem_dedupFirstAux (a : String) :
    ∀ (l seen : List String), a ∈ dedupFirstAux seen l ↔ (a ∈ l ∧ a ∉ seen) := by
  intro l
  induction l with
  | nil => intro seen; simp [dedupFirstAux]
  | cons x xs ih =>
    intro seen
    by_cases hx : x ∈ seen
    · rw [dedupFirstAux, if_pos hx, ih seen]
      constructor
      · rintro ⟨hm, hs⟩; exact ⟨List.mem_cons_of_mem x hm, hs⟩
      · rintro ⟨hm, hs⟩
        rcases List.mem_cons.mp hm with h | h
        · exact absurd (h ▸ hx) hs
        · exact ⟨h, hs⟩
    · rw [dedupFirstAux, if_neg hx]
      constructor
      · intro hm
        rcases List.mem_cons.mp hm with h | h
        · exact ⟨h ▸ List.mem_cons_self x xs, h ▸ hx⟩
        · rcases (ih (x :: seen)).mp h with ⟨h1, h2⟩
          refine ⟨List.mem_cons_of_mem x h1, fun hs => h2 (List.mem_cons_of_mem x hs)⟩
      · rintro ⟨hm, hs⟩
        rcases List.mem_cons.mp hm with h | h
        · exact h ▸ List.mem_cons_self x _
        · by_cases hax : a = x
          · exact hax ▸ List.mem_cons_self x _
          · exact List.mem_cons_of_mem x ((ih (x :: seen)).mpr
              ⟨h, fun hmem => (List.mem_cons.mp hmem).elim hax hs⟩)

/-- The engine's feedback dedup preserves membership. -/
theorem mem_dedupFirst (a : String) (l : List String) : a ∈ dedupFirst l ↔ a ∈ l := by
  rw [dedupFirst, mem_dedupFirstAux]
  simp

/-- `maxScoreOver` only depends on the pointwise scores. -/
theorem maxScoreOver_congr (f g : Message → Nat) (h : ∀ m, f m = g m) (l : List Message) :
    maxScoreOver f l = maxScoreOver g l := by
  unfold maxScoreOver
  suffices H : ∀ acc, l.foldl (fun acc m => Nat.max acc (f m)) acc
      = l.foldl (fun acc m => Nat.max acc (g m)) acc from H 0
  induction l with
  | nil => intro acc; rfl
  | cons m rest ih => intro acc; simp only [List.foldl_cons, h m]; exact ih _

/-- `maxScoreOver` of a single message is that message's score. -/
theorem maxScoreOver_singleton (f : Message → Nat) (m : Message) :
    maxScoreOver f [m] = f m := by
  simp [maxScoreOver]

/-- `userFilter` of a conversation without user messages is empty. -/
theorem userFilter_eq_nil (conv : List Message)
    (hu : ∀ m ∈ conv, m.role ≠ JsVal.str "user") : userFilter conv = [] := by
  induction conv with
  | nil => rfl
  | cons m rest ih =>
    have hm := hu m (List.mem_cons_self m rest)
    simp only [userFilter, List.filter_cons, decide_eq_true_eq, if_neg hm]
    exact ih fun d hd => hu d (List.mem_cons_of_mem m hd)

/-- If every message before index `i` passes validation and the message at
`i` fails the presence check, validation stops with the presence error
naming `i` (offset by the starting index `k`). -/
theorem validate_error_missing :
    ∀ (msgs : List RawMessage) (k i : Nat) (m : RawMessage),
      msgs[i]? = some m → (msgs.take i).all msgOk = true → msgMissingProps m = true →
      ScoringEngine.validateMessages msgs k
        = .error (ScoringEngine.missingPropsError (k + i)) := by
  intro msgs
  induction msgs with
  | nil => intro k i m hget; simp at hget
  | cons m0 rest ih =>
    intro k i m hget hpre hbad
    cases i with
    | zero =>
      rw [List.getElem?_cons_zero, Option.some.injEq] at hget
      subst hget
      rw [Nat.add_zero]
      obtain ⟨or, oc⟩ := m0
      cases or with
      | none => cases oc <;> rfl
      | some r =>
        cases oc with
        | none => rfl
        | some c =>
          have hbad' : (!jsValTruthy r || !jsValTruthy c) = true := by
            simpa [msgMissingProps] using hbad
          unfold ScoringEngine.validateMessages
          simp [hbad']
    | succ i' =>
      rw [List.getElem?_cons_succ] at hget
      rw [List.take_succ_cons, List.all_cons, Bool.and_eq_true] at hpre
      obtain ⟨h0, hpre'⟩ := hpre
      obtain ⟨or, oc⟩ := m0
      cases or with
      | none => simp [msgOk] at h0
      | some r =>
        cases oc with
        | none => simp [msgOk] at h0
        | some c =>
          cases c with
          | nonString t => simp [msgOk] at h0
          | str s =>
            rw [msgOk, Bool.and_eq_true] at h0
            obtain ⟨hr, hs⟩ := h0
            have hcond : (!jsValTruthy r || !jsValTruthy (JsVal.str s)) = false := by
              rw [hr]; simp [jsValTruthy, hs]
            unfold ScoringEngine.validateMessages
            simp only [hcond, Bool.false_eq_true, if_false]
            rw [ih (k + 1) i' m hget hpre' hbad]
            have heq : k + 1 + i' = k + (i' + 1) := by omega
            rw [heq]
            rfl

/-- If every message before index `i` passes validation and the message at
`i` passes the presence check but has non-string content, validation stops
with the content-type error naming `i`. -/
theorem validate_error_type :
    ∀ (msgs : List RawMessage) (k i : Nat) (m : RawMessage),
      msgs[i]? = some m → (msgs.take i).all msgOk = true → msgBadContentType m = true →
      ScoringEngine.validateMessages msgs k
        = .error (ScoringEngine.contentTypeError (k + i)) := by
  intro msgs
  induction msgs with
  | nil => intro k i m hget; simp at hget
  | cons m0 rest ih =>
    intro k i m hget hpre hbad
    cases i with
    | zero =>
      rw [List.getElem?_cons_zero, Option.some.injEq] at hget
      subst hget
      rw [Nat.add_zero]
      obtain ⟨or, oc⟩ := m0
      cases or with
      | none => simp [msgBadContentType] at hbad
      | some r =>
        cases oc with
        | none => simp [msgBadContentType] at hbad
        | some c =>
          cases c with
          | str s => simp [msgBadContentType] at hbad
          | nonString t =>
            rw [msgBadContentType, Bool.and_eq_true] at hbad
            obtain ⟨hr, ht⟩ := hbad
            have hcond : (!jsValTruthy r || !jsValTruthy (JsVal.nonString t)) = false := by
              rw [hr]; simp [jsValTruthy, ht]
            unfold ScoringEngine.validateMessages
            simp only [hcond, Bool.false_eq_true, if_false]
    | succ i' =>
      rw [List.getElem?_cons_succ] at hget
      rw [List.take_succ_cons, List.all_cons, Bool.and_eq_true] at hpre
      obtain ⟨h0, hpre'⟩ := hpre
      obtain ⟨or, oc⟩ := m0
      cases or with
      | none => simp [msgOk] at h0
      | some r =>
        cases oc with
        | none => simp [msgOk] at h0
        | some c =>
          cases c with
          | nonString t => simp [msgOk] at h0
          | str s =>
            rw [msgOk, Bool.and_eq_true] at h0
            obtain ⟨hr, hs⟩ := h0
            have hcond : (!jsValTruthy r || !jsValTruthy (JsVal.str s)) = false := by
              rw [hr]; simp [jsValTruthy, hs]
            unfold ScoringEngine.validateMessages
            simp only [hcond, Bool.false_eq_true, if_false]
            rw [ih (k + 1) i' m hget hpre' hbad]
            have heq : k + 1 + i' = k + (i' + 1) := by omega
            rw [heq]
            rfl

/-! ## Claims -/

/-- C1: for every conversation accepted by the engine's input validation,
the `overallScore` of the report returned by `analyzeConversation` equals
the exact sum of the four values in its `dimensionScores`
(promptEngineering + iterativeRefinement + problemSolving +
criticalThinking). -/
theorem C1_overallScore_is_sum (input : ScoringEngine.ConversationInput)
    (r : ScoringEngine.AnalysisReport)
    (h : ScoringEngine.analyzeConversation input = .ok r) :
    r.overallScore = r.dimensionScores.promptEngineering
      + r.dimensionScores.iterativeRefinement + r.dimensionScores.problemSolving
      + r.dimensionScores.criticalThinking := by
  cases input with
  | notArray v =>
    exact absurd h (by simp [ScoringEngine.analyzeConversation,
      ScoringEngine.analyzeConversationWith])
  | arr msgs =>
    cases hv : ScoringEngine.validateMessages msgs 0 with
    | error e =>
      simp only [ScoringEngine.analyzeConversation, ScoringEngine.analyzeConversationWith,
        hv] at h
      exact Except.noConfusion h
    | ok conv =>
      simp only [ScoringEngine.analyzeConversation, ScoringEngine.analyzeConversationWith,
        hv, Except.ok.injEq] at h
      subst h
      rfl

theorem C1_witness :
    (getOk (ScoringEngine.analyzeConversation sampleInput)).overallScore
      = (getOk (ScoringEngine.analyzeConversation sampleInput)).dimensionScores.promptEngineering
      + (getOk (ScoringEngine.analyzeConversation sampleInput)).dimensionScores.iterativeRefinement
      + (getOk (ScoringEngine.analyzeConversation sampleInput)).dimensionScores.problemSolving
      + (getOk (ScoringEngine.analyzeConversation sampleInput)).dimensionScores.criticalThinking :=
  C1_overallScore_is_sum sampleInput (getOk (ScoringEngine.analyzeConversation sampleInput)) rfl

/-- C2: `getProficiencyLevel` is monotonic non-decreasing in its integer
input and returns exactly the 5-tier ladder with lower-inclusive
boundaries: 0 to 40 Novice, 41 to 60 Intermediate, 61 to 75 Proficient,
76 to 85 Advanced, 86 and above Expert; in particular 40 maps to Novice,
41 and 60 to Intermediate, 61 and 75 to Proficient, 76 and 85 to
Advanced, and 86 to Expert. -/
theorem C2_proficiency_ladder :
    (∀ a b : Int, a ≤ b →
      levelRank (ScoringEngine.getProficiencyLevel a)
        ≤ levelRank (ScoringEngine.getProficiencyLevel b)) ∧
    (∀ s : Int, 0 ≤ s → s ≤ 40 → ScoringEngine.getProficiencyLevel s = "Novice") ∧
    (∀ s : Int, 41 ≤ s → s ≤ 60 → ScoringEngine.getProficiencyLevel s = "Intermediate") ∧
    (∀ s : Int, 61 ≤ s → s ≤ 75 → ScoringEngine.getProficiencyLevel s = "Proficient") ∧
    (∀ s : Int, 76 ≤ s → s ≤ 85 → ScoringEngine.getProficiencyLevel s = "Advanced") ∧
    (∀ s : Int, 86 ≤ s → ScoringEngine.getProficiencyLevel s = "Expert") ∧
    ScoringEngine.getProficiencyLevel 40 = "Novice" ∧
    ScoringEngine.getProficiencyLevel 41 = "Intermediate" ∧
    ScoringEngine.getProficiencyLevel 60 = "Intermediate" ∧
    ScoringEngine.getProficiencyLevel 61 = "Proficient" ∧
    ScoringEngine.getProficiencyLevel 75 = "Proficient" ∧
    ScoringEngine.getProficiencyLevel 76 = "Advanced" ∧
    ScoringEngine.getProficiencyLevel 85 = "Advanced" ∧
    ScoringEngine.getProficiencyLevel 86 = "Expert" := by
  refine ⟨?_, ?_, ?_, ?_, ?_, ?_, by decide, by decide, by decide, by decide, by decide,
    by decide, by decide, by decide⟩
  · intro a b hab
    unfold ScoringEngine.getProficiencyLevel
    split_ifs <;> first | decide | omega
  all_goals
    intros
    unfold ScoringEngine.getProficiencyLevel
    split_ifs <;> first | rfl | omega

theorem C2_witness :
    levelRank (ScoringEngine.getProficiencyLevel 40)
        ≤ levelRank (ScoringEngine.getProficiencyLevel 86) ∧
      ScoringEngine.getProficiencyLevel 50 = "Intermediate" :=
  ⟨C2_proficiency_ladder.1 40 86 (by decide),
    C2_proficiency_ladder.2.2.1 50 (by decide) (by decide)⟩

/-- C9 (implicit): a message whose content is the empty string — a valid
string value — is rejected by `analyzeConversation` with the
"must have role and content properties" error, because the presence check
is truthiness-based; likewise for an empty-string role.  So there are
conversations whose every content field is a string that the engine still
treats as structurally invalid. -/
theorem C9_empty_string_is_rejected :
    ScoringEngine.analyzeConversation (.arr [⟨some (.str "user"), some (.str "")⟩])
      = .error "Message at index 0 must have role and content properties" ∧
    ScoringEngine.analyzeConversation (.arr [⟨some (.str ""), some (.str "hello there")⟩])
      = .error "Message at index 0 must have role and content properties" :=
  ⟨rfl, rfl⟩

/-- C5: a non-array conversation input is rejected with a structural
error naming "must be an array" and no partial report; an array element
with a missing/falsy role or content, or with non-string content, is
rejected with an error identifying the offending index.  The rejection is
the same for arbitrary analyzer functions, i.e. validation is performed
centrally before any analyzer result is consulted. -/
theorem C5_central_input_validation :
    (∀ pe ir ps ct : List Message → Except String DimensionResult, ∀ v : JsVal,
      ScoringEngine.analyzeConversationWith pe ir ps ct (.notArray v)
        = .error ScoringEngine.notArrayError) ∧
    jsIncludes ScoringEngine.notArrayError.data "must be an array".data = true ∧
    (∀ pe ir ps ct : List Message → Except String DimensionResult,
      ∀ (msgs : List RawMessage) (i : Nat) (m : RawMessage),
      msgs[i]? = some m → (msgs.take i).all msgOk = true → msgMissingProps m = true →
      ScoringEngine.analyzeConversationWith pe ir ps ct (.arr msgs)
        = .error (ScoringEngine.missingPropsError i)) ∧
    (∀ pe ir ps ct : List Message → Except String DimensionResult,
      ∀ (msgs : List RawMessage) (i : Nat) (m : RawMessage),
      msgs[i]? = some m → (msgs.take i).all msgOk = true → msgBadContentType m = true →
      ScoringEngine.analyzeConversationWith pe ir ps ct (.arr msgs)
        = .error (ScoringEngine.contentTypeError i)) := by
  refine ⟨fun pe ir ps ct v => rfl, by decide, ?_, ?_⟩
  · intro pe ir ps ct msgs i m hget hpre hbad
    have hv := validate_error_missing msgs 0 i m hget hpre hbad
    rw [Nat.zero_add] at hv
    simp only [ScoringEngine.analyzeConversationWith, hv]
  · intro pe ir ps ct msgs i m hget hpre hbad
    have hv := validate_error_type msgs 0 i m hget hpre hbad
    rw [Nat.zero_add] at hv
    simp only [ScoringEngine.analyzeConversationWith, hv]

theorem C5_witness :
    ScoringEngine.analyzeConversationWith trivialScorer trivialScorer trivialScorer
        trivialScorer
        (.arr [⟨some (.str "user"), some (.str "hi")⟩, ⟨none, some (.str "lonely content")⟩])
      = .error (ScoringEngine.missingPropsError 1) :=
  C5_central_input_validation.2.2.1 trivialScorer trivialScorer trivialScorer trivialScorer
    [⟨some (.str "user"), some (.str "hi")⟩, ⟨none, some (.str "lonely content")⟩]
    1 ⟨none, some (.str "lonely content")⟩ rfl (by decide) (by decide)

/-- C3: for every structurally valid conversation with zero messages of
role "user", `analyzeConversation` raises no error and returns the report
with `overallScore = 0` and `proficiencyLevel = "Novice"`; each analyzer
returns score 0 with an all-zero breakdown and an explanatory feedback
string on the empty-user-subset path. -/
theorem C3_no_user_messages (msgs : List RawMessage) (conv : List Message)
    (hv : ScoringEngine.validateMessages msgs 0 = .ok conv)
    (hu : ∀ m ∈ conv, m.role ≠ JsVal.str "user") :
    ScoringEngine.analyzeConversation (.arr msgs) = .ok
      { overallScore := 0
        proficiencyLevel := "Novice"
        dimensionScores := ⟨0, 0, 0, 0⟩
        detailedBreakdown :=
          ⟨[("specificity", 0), ("structure", 0), ("context", 0), ("roleDefinition", 0)],
            [("precision", 0), ("errorCorrection", 0), ("progressiveImprovement", 0)],
            [("decomposition", 0), ("sequencing", 0), ("goalOrientation", 0)],
            [("verification", 0), ("biasDetection", 0), ("qualityAssessment", 0)]⟩
        feedback := ["No user prompts found in conversation",
          "No user messages found in conversation"] } ∧
    PromptEngineeringScorer.analyze conv =
      ⟨0, [("specificity", 0), ("structure", 0), ("context", 0), ("roleDefinition", 0)],
        ["No user prompts found in conversation"]⟩ ∧
    IterativeRefinementScorer.analyze conv =
      ⟨0, [("precision", 0), ("errorCorrection", 0), ("progressiveImprovement", 0)],
        ["No user messages found in conversation"]⟩ ∧
    ProblemSolvingScorer.analyze conv =
      ⟨0, [("decomposition", 0), ("sequencing", 0), ("goalOrientation", 0)],
        ["No user messages found in conversation"]⟩ ∧
    CriticalThinkingScorer.analyze conv =
      ⟨0, [("verification", 0), ("biasDetection", 0), ("qualityAssessment", 0)],
        ["No user messages found in conversation"]⟩ := by
  have hfil : userFilter conv = [] := userFilter_eq_nil conv hu
  have hpe : PromptEngineeringScorer.analyze conv =
      ⟨0, [("specificity", 0), ("structure", 0), ("context", 0), ("roleDefinition", 0)],
        ["No user prompts found in conversation"]⟩ := by
    simp [PromptEngineeringScorer.analyze, hfil]
  have hir : IterativeRefinementScorer.analyze conv =
      ⟨0, [("precision", 0), ("errorCorrection", 0), ("progressiveImprovement", 0)],
        ["No user messages found in conversation"]⟩ := by
    simp [IterativeRefinementScorer.analyze, hfil]
  have hps : ProblemSolvingScorer.analyze conv =
      ⟨0, [("decomposition", 0), ("sequencing", 0), ("goalOrientation", 0)],
        ["No user messages found in conversation"]⟩ := by
    simp [ProblemSolvingScorer.analyze, hfil]
  have hct : CriticalThinkingScorer.analyze conv =
      ⟨0, [("verification", 0), ("biasDetection", 0), ("qualityAssessment", 0)],
        ["No user messages found in conversation"]⟩ := by
    simp [CriticalThinkingScorer.analyze, hfil]
  refine ⟨?_, hpe, hir, hps, hct⟩
  simp only [ScoringEngine.analyzeConversation, ScoringEngine.analyzeConversationWith, hv,
    hpe, hir, hps, hct, ScoringEngine.runScorer]
  rfl

theorem C3_witness :
    ScoringEngine.analyzeConversation (.arr assistantOnlyMsgs) = .ok
      { overallScore := 0
        proficiencyLevel := "Novice"
        dimensionScores := ⟨0, 0, 0, 0⟩
        detailedBreakdown :=
          ⟨[("specificity", 0), ("structure", 0), ("context", 0), ("roleDefinition", 0)],
            [("precision", 0), ("errorCorrection", 0), ("progressiveImprovement", 0)],
            [("decomposition", 0), ("sequencing", 0), ("goalOrientation", 0)],
            [("verification", 0), ("biasDetection", 0), ("qualityAssessment", 0)]⟩
        feedback := ["No user prompts found in conversation",
          "No user messages found in conversation"] } ∧
    PromptEngineeringScorer.analyze [⟨JsVal.str "assistant", "Hello! How can I help you?"⟩] =
      ⟨0, [("specificity", 0), ("structure", 0), ("context", 0), ("roleDefinition", 0)],
        ["No user prompts found in conversation"]⟩ ∧
    IterativeRefinementScorer.analyze [⟨JsVal.str "assistant", "Hello! How can I help you?"⟩] =
      ⟨0, [("precision", 0), ("errorCorrection", 0), ("progressiveImprovement", 0)],
        ["No user messages found in conversation"]⟩ ∧
    ProblemSolvingScorer.analyze [⟨JsVal.str "assistant", "Hello! How can I help you?"⟩] =
      ⟨0, [("decomposition", 0), ("sequencing", 0), ("goalOrientation", 0)],
        ["No user messages found in conversation"]⟩ ∧
    CriticalThinkingScorer.analyze [⟨JsVal.str "assistant", "Hello! How can I help you?"⟩] =
      ⟨0, [("verification", 0), ("biasDetection", 0), ("qualityAssessment", 0)],
        ["No user messages found in conversation"]⟩ :=
  C3_no_user_messages assistantOnlyMsgs [⟨JsVal.str "assistant", "Hello! How can I help you?"⟩]
    rfl (by decide)

/-- Every sub-criterion in a Prompt-Engineering result is within its cap,
and the dimension score is the plain sum of the breakdown values. -/
theorem pe_analyze_bounds (conv : List Message) :
    ((PromptEngineeringScorer.analyze conv).breakdown.all
        (fun p => p.2 ≤ subCriterionCap p.1)) = true ∧
    (PromptEngineeringScorer.analyze conv).score
      = breakdownSum (PromptEngineeringScorer.analyze conv).breakdown := by
  simp only [PromptEngineeringScorer.analyze]
  split
  · exact ⟨by decide, rfl⟩
  · constructor
    · simp only [List.all_cons, List.all_nil, Bool.and_eq_true, decide_eq_true_eq,
        Bool.and_true]
      refine ⟨Nat.min_le_left 6 _, Nat.min_le_left 6 _, Nat.min_le_left 6 _,
        Nat.min_le_left 7 _⟩
    · simp only [breakdownSum, List.map_cons, List.map_nil, List.sum_cons, List.sum_nil]
      omega

/-- The sequencing sub-score never exceeds its cap of 8. -/
theorem assessSequencing_le (conv : List Message) :
    ProblemSolvingScorer.assessSequencing conv ≤ 8 := by
  simp only [ProblemSolvingScorer.assessSequencing]
  by_cases hc : (userFilter conv).length < 2
  · rw [if_pos hc]; exact Nat.min_le_left 8 0
  · rw [if_neg hc]; exact Nat.min_le_left 8 _

/-- The goal-orientation sub-score never exceeds its cap of 9. -/
theorem assessGoalOrientation_le (conv : List Message) :
    ProblemSolvingScorer.assessGoalOrientation conv ≤ 9 := by
  cases hm : userFilter conv with
  | nil => simp [ProblemSolvingScorer.assessGoalOrientation, hm]
  | cons u0 urest =>
    simp only [ProblemSolvingScorer.assessGoalOrientation, hm]
    exact Nat.min_le_left 9 _

/-- Every sub-criterion in a Problem-Solving result is within its cap,
and the dimension score is the plain sum of the breakdown values. -/
theorem ps_analyze_bounds (conv : List Message) :
    ((ProblemSolvingScorer.analyze conv).breakdown.all
        (fun p => p.2 ≤ subCriterionCap p.1)) = true ∧
    (ProblemSolvingScorer.analyze conv).score
      = breakdownSum (ProblemSolvingScorer.analyze conv).breakdown := by
  simp only [ProblemSolvingScorer.analyze]
  split
  · exact ⟨by decide, rfl⟩
  · constructor
    · simp only [List.all_cons, List.all_nil, Bool.and_eq_true, decide_eq_true_eq,
        Bool.and_true]
      exact ⟨Nat.min_le_left 8 _, assessSequencing_le conv, assessGoalOrientation_le conv⟩
    · simp only [breakdownSum, List.map_cons, List.map_nil, List.sum_cons, List.sum_nil]
      omega

/-- Every sub-criterion in a Critical-Thinking result is within its cap,
and the dimension score is the plain sum of the breakdown values. -/
theorem ct_analyze_bounds (conv : List Message) :
    ((CriticalThinkingScorer.analyze conv).breakdown.all
        (fun p => p.2 ≤ subCriterionCap p.1)) = true ∧
    (CriticalThinkingScorer.analyze conv).score
      = breakdownSum (CriticalThinkingScorer.analyze conv).breakdown := by
  simp only [CriticalThinkingScorer.analyze]
  split
  · exact ⟨by decide, rfl⟩
  · constructor
    · simp only [List.all_cons, List.all_nil, Bool.and_eq_true, decide_eq_true_eq,
        Bool.and_true]
      refine ⟨Nat.min_le_left 8 _, Nat.min_le_left 8 _, Nat.min_le_left 9 _⟩
    · simp only [breakdownSum, List.map_cons, List.map_nil, List.sum_cons, List.sum_nil]
      omega

/-- C4: for every structurally valid conversation, every sub-criterion
value in the report's `detailedBreakdown` is at most that sub-criterion's
documented cap (specificity/structure/context 6, roleDefinition 7,
decomposition/sequencing 8, goalOrientation 9, verification/biasDetection
8, qualityAssessment 9), no matter how many boosting markers the input
contains; and the enforcement is the per-sub-criterion `min`, not a clamp
on the dimension total — each dimension score is the plain sum of its
breakdown values. -/
theorem C4_subcriterion_caps (input : ScoringEngine.ConversationInput)
    (r : ScoringEngine.AnalysisReport)
    (h : ScoringEngine.analyzeConversation input = .ok r) :
    (r.detailedBreakdown.promptEngineering.all (fun p => p.2 ≤ subCriterionCap p.1)) = true ∧
    (r.detailedBreakdown.problemSolving.all (fun p => p.2 ≤ subCriterionCap p.1)) = true ∧
    (r.detailedBreakdown.criticalThinking.all (fun p => p.2 ≤ subCriterionCap p.1)) = true ∧
    r.dimensionScores.promptEngineering = breakdownSum r.detailedBreakdown.promptEngineering ∧
    r.dimensionScores.problemSolving = breakdownSum r.detailedBreakdown.problemSolving ∧
    r.dimensionScores.criticalThinking = breakdownSum r.detailedBreakdown.criticalThinking := by
  cases input with
  | notArray v =>
    exact absurd h (by simp [ScoringEngine.analyzeConversation,
      ScoringEngine.analyzeConversationWith])
  | arr msgs =>
    cases hv : ScoringEngine.validateMessages msgs 0 with
    | error e =>
      simp only [ScoringEngine.analyzeConversation, ScoringEngine.analyzeConversationWith,
        hv] at h
      exact Except.noConfusion h
    | ok conv =>
      simp only [ScoringEngine.analyzeConversation, ScoringEngine.analyzeConversationWith,
        hv, Except.ok.injEq] at h
      subst h
      exact ⟨(pe_analyze_bounds conv).1, (ps_analyze_bounds conv).1,
        (ct_analyze_bounds conv).1, (pe_analyze_bounds conv).2,
        (ps_analyze_bounds conv).2, (ct_analyze_bounds conv).2⟩

theorem C4_witness :
    ((getOk (ScoringEngine.analyzeConversation sampleInput)).detailedBreakdown.promptEngineering.all
      (fun p => p.2 ≤ subCriterionCap p.1)) = true ∧
    ((getOk (ScoringEngine.analyzeConversation sampleInput)).detailedBreakdown.problemSolving.all
      (fun p => p.2 ≤ subCriterionCap p.1)) = true ∧
    ((getOk (ScoringEngine.analyzeConversation sampleInput)).detailedBreakdown.criticalThinking.all
      (fun p => p.2 ≤ subCriterionCap p.1)) = true ∧
    (getOk (ScoringEngine.analyzeConversation sampleInput)).dimensionScores.promptEngineering
      = breakdownSum (getOk (ScoringEngine.analyzeConversation sampleInput)).detailedBreakdown.promptEngineering ∧
    (getOk (ScoringEngine.analyzeConversation sampleInput)).dimensionScores.problemSolving
      = breakdownSum (getOk (ScoringEngine.analyzeConversation sampleInput)).detailedBreakdown.problemSolving ∧
    (getOk (ScoringEngine.analyzeConversation sampleInput)).dimensionScores.criticalThinking
      = breakdownSum (getOk (ScoringEngine.analyzeConversation sampleInput)).detailedBreakdown.criticalThinking :=
  C4_subcriterion_caps sampleInput (getOk (ScoringEngine.analyzeConversation sampleInput)) rfl

/-- C6: if one dimension analyzer raises on a structurally valid
conversation, that dimension's score is recorded as 0, its breakdown as
an empty mapping, and a diagnostic feedback string naming the dimension
appears in the report, while the other dimensions' results and the
overall report are still produced: the analysis never fails because one
dimension failed.  Stated for each of the four dimensions in turn over
arbitrary analyzer functions. -/
theorem C6_analyzer_failure_isolated
    (pe ir ps ct : List Message → Except String DimensionResult)
    (msgs : List RawMessage) (conv : List Message)
    (hv : ScoringEngine.validateMessages msgs 0 = .ok conv) :
    (∀ e r2 r3 r4, pe conv = .error e → ir conv = .ok r2 → ps conv = .ok r3 →
      ct conv = .ok r4 →
      ∃ r, ScoringEngine.analyzeConversationWith pe ir ps ct (.arr msgs) = .ok r ∧
        r.dimensionScores = ⟨0, r2.score, r3.score, r4.score⟩ ∧
        r.detailedBreakdown = ⟨[], r2.breakdown, r3.breakdown, r4.breakdown⟩ ∧
        "Scoring issue in promptEngineering" ∈ r.feedback ∧
        r.overallScore = r2.score + r3.score + r4.score) ∧
    (∀ e r1 r3 r4, ir conv = .error e → pe conv = .ok r1 → ps conv = .ok r3 →
      ct conv = .ok r4 →
      ∃ r, ScoringEngine.analyzeConversationWith pe ir ps ct (.arr msgs) = .ok r ∧
        r.dimensionScores = ⟨r1.score, 0, r3.score, r4.score⟩ ∧
        r.detailedBreakdown = ⟨r1.breakdown, [], r3.breakdown, r4.breakdown⟩ ∧
        "Scoring issue in iterativeRefinement" ∈ r.feedback ∧
        r.overallScore = r1.score + r3.score + r4.score) ∧
    (∀ e r1 r2 r4, ps conv = .error e → pe conv = .ok r1 → ir conv = .ok r2 →
      ct conv = .ok r4 →
      ∃ r, ScoringEngine.analyzeConversationWith pe ir ps ct (.arr msgs) = .ok r ∧
        r.dimensionScores = ⟨r1.score, r2.score, 0, r4.score⟩ ∧
        r.detailedBreakdown = ⟨r1.breakdown, r2.breakdown, [], r4.breakdown⟩ ∧
        "Scoring issue in problemSolving" ∈ r.feedback ∧
        r.overallScore = r1.score + r2.score + r4.score) ∧
    (∀ e r1 r2 r3, ct conv = .error e → pe conv = .ok r1 → ir conv = .ok r2 →
      ps conv = .ok r3 →
      ∃ r, ScoringEngine.analyzeConversationWith pe ir ps ct (.arr msgs) = .ok r ∧
        r.dimensionScores = ⟨r1.score, r2.score, r3.score, 0⟩ ∧
        r.detailedBreakdown = ⟨r1.breakdown, r2.breakdown, r3.breakdown, []⟩ ∧
        "Scoring issue in criticalThinking" ∈ r.feedback ∧
        r.overallScore = r1.score + r2.score + r3.score) := by
  refine ⟨?_, ?_, ?_, ?_⟩
  · intro e r2 r3 r4 h1 h2 h3 h4
    refine ⟨⟨0 + r2.score + r3.score + r4.score,
      ScoringEngine.getProficiencyLevel ((0 + r2.score + r3.score + r4.score : Nat) : Int),
      ⟨0, r2.score, r3.score, r4.score⟩,
      ⟨[], r2.breakdown, r3.breakdown, r4.breakdown⟩,
      dedupFirst (["Scoring issue in promptEngineering"] ++ r2.feedback ++ r3.feedback
        ++ r4.feedback)⟩, ?_, rfl, rfl, ?_, ?_⟩
    · simp only [ScoringEngine.analyzeConversationWith, hv, h1, h2, h3, h4]
      rfl
    · show _ ∈ dedupFirst _
      simp [mem_dedupFirst]
    · show 0 + r2.score + r3.score + r4.score = _
      omega
  · intro e r1 r3 r4 h1 h2 h3 h4
    refine ⟨⟨r1.score + 0 + r3.score + r4.score,
      ScoringEngine.getProficiencyLevel ((r1.score + 0 + r3.score + r4.score : Nat) : Int),
      ⟨r1.score, 0, r3.score, r4.score⟩,
      ⟨r1.breakdown, [], r3.breakdown, r4.breakdown⟩,
      dedupFirst (r1.feedback ++ ["Scoring issue in iterativeRefinement"] ++ r3.feedback
        ++ r4.feedback)⟩, ?_, rfl, rfl, ?_, ?_⟩
    · simp only [ScoringEngine.analyzeConversationWith, hv, h1, h2, h3, h4]
      rfl
    · show _ ∈ dedupFirst _
      simp [mem_dedupFirst]
    · show r1.score + 0 + r3.score + r4.score = _
      omega
  · intro e r1 r2 r4 h1 h2 h3 h4
    refine ⟨⟨r1.score + r2.score + 0 + r4.score,
      ScoringEngine.getProficiencyLevel ((r1.score + r2.score + 0 + r4.score : Nat) : Int),
      ⟨r1.score, r2.score, 0, r4.score⟩,
      ⟨r1.breakdown, r2.breakdown, [], r4.breakdown⟩,
      dedupFirst (r1.feedback ++ r2.feedback ++ ["Scoring issue in problemSolving"]
        ++ r4.feedback)⟩, ?_, rfl, rfl, ?_, ?_⟩
    · simp only [ScoringEngine.analyzeConversationWith, hv, h1, h2, h3, h4]
      rfl
    · show _ ∈ dedupFirst _
      simp [mem_dedupFirst]
    · show r1.score + r2.score + 0 + r4.score = _
      omega
  · intro e r1 r2 r3 h1 h2 h3 h4
    refine ⟨⟨r1.score + r2.score + r3.score + 0,
      ScoringEngine.getProficiencyLevel ((r1.score + r2.score + r3.score + 0 : Nat) : Int),
      ⟨r1.score, r2.score, r3.score, 0⟩,
      ⟨r1.breakdown, r2.breakdown, r3.breakdown, []⟩,
      dedupFirst (r1.feedback ++ r2.feedback ++ r3.feedback
        ++ ["Scoring issue in criticalThinking"])⟩, ?_, rfl, rfl, ?_, ?_⟩
    · simp only [ScoringEngine.analyzeConversationWith, hv, h1, h2, h3, h4]
      rfl
    · show _ ∈ dedupFirst _
      simp [mem_dedupFirst]
    · show r1.score + r2.score + r3.score + 0 = _
      omega

theorem C6_witness :
    ∃ r, ScoringEngine.analyzeConversationWith throwingScorer constScorer constScorer
        constScorer (.arr assistantOnlyMsgs) = .ok r ∧
      r.dimensionScores = ⟨0, 5, 5, 5⟩ ∧
      r.detailedBreakdown = ⟨[], [("x", 5)], [("x", 5)], [("x", 5)]⟩ ∧
      "Scoring issue in promptEngineering" ∈ r.feedback ∧
      r.overallScore = 5 + 5 + 5 :=
  (C6_analyzer_failure_isolated throwingScorer constScorer constScorer constScorer
    assistantOnlyMsgs [⟨JsVal.str "assistant", "Hello! How can I help you?"⟩] rfl).1
    "internal failure" ⟨5, [("x", 5)], ["some feedback"]⟩ ⟨5, [("x", 5)], ["some feedback"]⟩
    ⟨5, [("x", 5)], ["some feedback"]⟩ rfl rfl rfl rfl

/-- The source's per-message specificity score equals the claim's additive
formula. -/
theorem specMsgScore_eq_spec (m : Message) :
    PromptEngineeringScorer.specMsgScore m = specScoreSpecC7 m := by
  simp only [PromptEngineeringScorer.specMsgScore, specScoreSpecC7]
  split_ifs <;> omega

/-- C7: the Prompt-Engineering specificity sub-score is the maximum over
all user messages of the additive formula (+2 for word count over 50, +1
more over 100, +2 for a specific-language marker, +1 for no vague
marker), capped at 6; in particular a single user message of exactly 101
words containing "specific" and no vague markers scores specificity 6. -/
theorem C7_specificity (prompts : List Message) (m : Message)
    (h101 : jsWordCount m.content = 101)
    (hspec : (PromptEngineeringScorer.specificMarkers.any
      (fun mk => jsIncludes (jsLower m.content) mk.data)) = true)
    (hvague : (PromptEngineeringScorer.vagueMarkers.any
      (fun mk => jsIncludes (jsLower m.content) mk.data)) = false) :
    PromptEngineeringScorer.assessSpecificity prompts
        = Nat.min 6 (maxScoreOver specScoreSpecC7 prompts) ∧
      PromptEngineeringScorer.assessSpecificity [m] = 6 := by
  constructor
  · unfold PromptEngineeringScorer.assessSpecificity
    rw [maxScoreOver_congr _ _ specMsgScore_eq_spec prompts]
  · have hm : PromptEngineeringScorer.specMsgScore m = 6 := by
      simp only [PromptEngineeringScorer.specMsgScore, h101, hspec, hvague]
      decide
    unfold PromptEngineeringScorer.assessSpecificity
    rw [maxScoreOver_singleton, hm]
    rfl

set_option maxRecDepth 40000 in
theorem C7_witness :
    PromptEngineeringScorer.assessSpecificity [specific101Message]
        = Nat.min 6 (maxScoreOver specScoreSpecC7 [specific101Message]) ∧
      PromptEngineeringScorer.assessSpecificity [specific101Message] = 6 :=
  C7_specificity [specific101Message] specific101Message (by decide) (by decide) (by decide)

/-- The source's per-message decomposition score equals the claim's
additive formula. -/
theorem decompMsgScore_eq_spec (m : Message) :
    ProblemSolvingScorer.decompMsgScore m = decompScoreSpecC8 m := by
  simp only [ProblemSolvingScorer.decompMsgScore, decompScoreSpecC8]
  split_ifs <;> omega

/-- C8: the Problem-Solving decomposition sub-score awards, per user
message (before the across-messages max and the cap of 8), +3 for a
step-language marker, +2 when the message contains at least 2 occurrences
of "and", +2 when both "1." and "2." are present, and +1 for sub-task
vocabulary. -/
theorem C8_decomposition (userMessages : List Message) :
    ProblemSolvingScorer.assessDecomposition userMessages
      = Nat.min 8 (maxScoreOver decompScoreSpecC8 userMessages) := by
  unfold ProblemSolvingScorer.assessDecomposition
  rw [maxScoreOver_congr _ _ decompMsgScore_eq_spec userMessages]

/-- If the role regex matches at the current position, the leftmost search
returns that capture. -/
theorem searchRole_here (lead : List Char) (c : Char) (rest out : List Char)
    (h : tryRoleAt lead (c :: rest) = some out) :
    searchRole lead (c :: rest) = some out := by
  simp only [searchRole, h]

/-- If the role regex fails at the current position, the leftmost search
moves one character right. -/
theorem searchRole_skip (lead : List Char) (c : Char) (rest : List Char)
    (h : tryRoleAt lead (c :: rest) = none) :
    searchRole lead (c :: rest) = searchRole lead rest := by
  simp only [searchRole, h]

/-- A captured role longer than 5 characters earns at least the basic 3
points. -/
theorem rolePoints_ge3 (role : List Char) (h : 5 < role.length) :
    3 ≤ rolePoints (some role) := by
  have hne : role.isEmpty = false := by
    cases role with
    | nil => simp at h
    | cons a l => rfl
  have hc : (!role.isEmpty && decide (role.length > 5)) = true := by simp [hne, h]
  simp only [rolePoints, hc, if_true]
  omega

/-- A captured role longer than 15 characters earns at least 5 points. -/
theorem rolePoints_ge5 (role : List Char) (h5 : 5 < role.length) (h15 : 15 < role.length) :
    5 ≤ rolePoints (some role) := by
  have hne : role.isEmpty = false := by
    cases role with
    | nil => simp at h5
    | cons a l => rfl
  have hc : (!role.isEmpty && decide (role.length > 5)) = true := by simp [hne, h5]
  simp only [rolePoints, hc, if_true, if_pos h15]
  omega

/-- C10 counterexample: the message
"See this as a hint, act as a professional developer" contains the phrase
"act as a professional developer"; the `act as (a|an)` regex captures
"professional developer" (22 characters, longer than 5 and than 15), yet
the bare `as (a|an)` regex's leftmost match captures "hint", so the
points are not accumulated twice: the per-message role-definition score is
5 — below the 6 the claim promises, and below the cap of 7 it predicts
for a role longer than 15 characters. -/
theorem C10_counterexample :
    jsIncludes "See this as a hint, act as a professional developer".data
        "act as a professional developer".data = true ∧
    searchRole PromptEngineeringScorer.actAsLead
        "See this as a hint, act as a professional developer".data
      = some "professional developer".data ∧
    15 < "professional developer".data.length ∧
    searchRole PromptEngineeringScorer.asLead
        "See this as a hint, act as a professional developer".data
      = some "hint".data ∧
    PromptEngineeringScorer.roleDefMsgScore
        ⟨JsVal.str "user", "See this as a hint, act as a professional developer"⟩ = 5 ∧
    PromptEngineeringScorer.assessRoleDefinition
        [⟨JsVal.str "user", "See this as a hint, act as a professional developer"⟩] = 5 := by
  refine ⟨by decide, by decide, by decide, by decide, by decide, by decide⟩

/-- C10 (amended): a user message whose content is exactly
"act as a <role>" or "act as an <role>", where the role contains no `.`,
`,` or newline and is longer than 5 characters, is matched by both the
`act as (a|an)` regex and the bare `as (a|an)` regex with the same
capture, so its role-definition points are accumulated twice before the
cap: the per-message score is at least 6, and if the role is also longer
than 15 characters the sub-score reaches the cap of 7 from this single
phrase. -/
theorem C10_amended_double_counting (role : List Char)
    (hterm : ∀ c ∈ role, termChar c = false) (hlen : 5 < role.length) :
    searchRole PromptEngineeringScorer.actAsLead ("act as a ".data ++ role) = some role ∧
    searchRole PromptEngineeringScorer.asLead ("act as a ".data ++ role) = some role ∧
    searchRole PromptEngineeringScorer.actAsLead ("act as an ".data ++ role) = some role ∧
    searchRole PromptEngineeringScorer.asLead ("act as an ".data ++ role) = some role ∧
    6 ≤ PromptEngineeringScorer.roleDefMsgScore
      ⟨JsVal.str "user", String.mk ("act as a ".data ++ role)⟩ ∧
    (15 < role.length →
      PromptEngineeringScorer.assessRoleDefinition
        [⟨JsVal.str "user", String.mk ("act as a ".data ++ role)⟩] = 7) := by
  obtain ⟨c0, rtl, rfl⟩ : ∃ c0 rtl, role = c0 :: rtl := by
    cases role with
    | nil => simp at hlen
    | cons c0 rtl => exact ⟨c0, rtl, rfl⟩
  have hc0 : (c0 == '\n') = false := by
    have := hterm c0 (List.mem_cons_self c0 rtl)
    simp only [termChar, Bool.or_eq_false_iff] at this
    exact this.2
  have htail : takeUntilTerm rtl = rtl :=
    takeUntilTerm_id rtl fun d hd => hterm d (List.mem_cons_of_mem c0 hd)
  have hlc : lazyCapture (c0 :: rtl) = some (c0 :: rtl) := by
    simp only [lazyCapture, hc0, Bool.false_eq_true, if_false, htail]
  have sActA : searchRole PromptEngineeringScorer.actAsLead
      ("act as a ".data ++ (c0 :: rtl)) = some (c0 :: rtl) :=
    searchRole_here _ _ _ _
      ((show tryRoleAt PromptEngineeringScorer.actAsLead ("act as a ".data ++ (c0 :: rtl))
          = lazyCapture (c0 :: rtl) from rfl).trans hlc)
  have sAsA : searchRole PromptEngineeringScorer.asLead
      ("act as a ".data ++ (c0 :: rtl)) = some (c0 :: rtl) := by
    have e1 := searchRole_skip PromptEngineeringScorer.asLead 'a'
      ("ct as a ".data ++ (c0 :: rtl)) rfl
    have e2 := searchRole_skip PromptEngineeringScorer.asLead 'c'
      ("t as a ".data ++ (c0 :: rtl)) rfl
    have e3 := searchRole_skip PromptEngineeringScorer.asLead 't'
      (" as a ".data ++ (c0 :: rtl)) rfl
    have e4 := searchRole_skip PromptEngineeringScorer.asLead ' '
      ("as a ".data ++ (c0 :: rtl)) rfl
    have e5 : searchRole PromptEngineeringScorer.asLead ("as a ".data ++ (c0 :: rtl))
        = some (c0 :: rtl) :=
      searchRole_here _ _ _ _
        ((show tryRoleAt PromptEngineeringScorer.asLead ("as a ".data ++ (c0 :: rtl))
            = lazyCapture (c0 :: rtl) from rfl).trans hlc)
    exact (((e1.trans e2).trans e3).trans e4).trans e5
  have sActAn : searchRole PromptEngineeringScorer.actAsLead
      ("act as an ".data ++ (c0 :: rtl)) = some (c0 :: rtl) :=
    searchRole_here _ _ _ _
      ((show tryRoleAt PromptEngineeringScorer.actAsLead ("act as an ".data ++ (c0 :: rtl))
          = lazyCapture (c0 :: rtl) from rfl).trans hlc)
  have sAsAn : searchRole PromptEngineeringScorer.asLead
      ("act as an ".data ++ (c0 :: rtl)) = some (c0 :: rtl) := by
    have e1 := searchRole_skip PromptEngineeringScorer.asLead 'a'
      ("ct as an ".data ++ (c0 :: rtl)) rfl
    have e2 := searchRole_skip PromptEngineeringScorer.asLead 'c'
      ("t as an ".data ++ (c0 :: rtl)) rfl
    have e3 := searchRole_skip PromptEngineeringScorer.asLead 't'
      (" as an ".data ++ (c0 :: rtl)) rfl
    have e4 := searchRole_skip PromptEngineeringScorer.asLead ' '
      ("as an ".data ++ (c0 :: rtl)) rfl
    have e5 : searchRole PromptEngineeringScorer.asLead ("as an ".data ++ (c0 :: rtl))
        = some (c0 :: rtl) :=
      searchRole_here _ _ _ _
        ((show tryRoleAt PromptEngineeringScorer.asLead ("as an ".data ++ (c0 :: rtl))
            = lazyCapture (c0 :: rtl) from rfl).trans hlc)
    exact (((e1.trans e2).trans e3).trans e4).trans e5
  have hge3 := rolePoints_ge3 (c0 :: rtl) hlen
  have hmsg : 6 ≤ PromptEngineeringScorer.roleDefMsgScore
      ⟨JsVal.str "user", String.mk ("act as a ".data ++ (c0 :: rtl))⟩ := by
    show 6 ≤ rolePoints (searchRole PromptEngineeringScorer.actAsLead
        ("act as a ".data ++ (c0 :: rtl)))
      + rolePoints (searchRole PromptEngineeringScorer.youAreLead
        ("act as a ".data ++ (c0 :: rtl)))
      + rolePoints (searchRole PromptEngineeringScorer.asLead
        ("act as a ".data ++ (c0 :: rtl)))
    rw [sActA, sAsA]
    omega
  refine ⟨sActA, sAsA, sActAn, sAsAn, hmsg, ?_⟩
  intro h15
  have hge5 := rolePoints_ge5 (c0 :: rtl) hlen h15
  have hbig : 7 ≤ PromptEngineeringScorer.roleDefMsgScore
      ⟨JsVal.str "user", String.mk ("act as a ".data ++ (c0 :: rtl))⟩ := by
    show 7 ≤ rolePoints (searchRole PromptEngineeringScorer.actAsLead
        ("act as a ".data ++ (c0 :: rtl)))
      + rolePoints (searchRole PromptEngineeringScorer.youAreLead
        ("act as a ".data ++ (c0 :: rtl)))
      + rolePoints (searchRole PromptEngineeringScorer.asLead
        ("act as a ".data ++ (c0 :: rtl)))
    rw [sActA, sAsA]
    omega
  unfold PromptEngineeringScorer.assessRoleDefinition
  rw [maxScoreOver_singleton]
  exact Nat.min_eq_left hbig

theorem C10_witness :
    searchRole PromptEngineeringScorer.actAsLead
        ("act as a ".data ++ "senior software architect".data)
      = some "senior software architect".data ∧
    searchRole PromptEngineeringScorer.asLead
        ("act as a ".data ++ "senior software architect".data)
      = some "senior software architect".data ∧
    searchRole PromptEngineeringScorer.actAsLead
        ("act as an ".data ++ "senior software architect".data)
      = some "senior software architect".data ∧
    searchRole PromptEngineeringScorer.asLead
        ("act as an ".data ++ "senior software architect".data)
      = some "senior software architect".data ∧
    6 ≤ PromptEngineeringScorer.roleDefMsgScore
      ⟨JsVal.str "user", String.mk ("act as a ".data ++ "senior software architect".data)⟩ ∧
    PromptEngineeringScorer.assessRoleDefinition
        [⟨JsVal.str "user", String.mk ("act as a ".data ++ "senior software architect".data)⟩]
      = 7 :=
  have h := C10_amended_double_counting "senior software architect".data (by decide) (by decide)
  ⟨h.1, h.2.1, h.2.2.1, h.2.2.2.1, h.2.2.2.2.1, h.2.2.2.2.2 (by decide)⟩

end AIEngagement

